import Mathlib

/-!
Verification of the car-pool real-time matching engine.

This file shallowly embeds the backend services of the repository:

* the RealTimeMatchingService class of
  src/backend/services/RideMatchingService.js (lines 261-880): active
  searches, the in-memory map of pending matches, the approval / denial /
  expiry handlers, the periodic scan and the instant-match path;
* the (distinct) RideMatchingService class of the same file (lines 4-255):
  its calculateHaversineDistance guard and the findMatches coordinate guard;
* the request validation of src/backend/routes/matching.js.

Numbers are rationals.  The trigonometric primitives used by the distance
formulas (Math.sin, Math.cos, Math.sqrt, Math.atan2, Math.PI) are abstracted
into a TrigModel parameter: every claim settled here depends only on the
branch structure of the distance code, never on a trigonometric value, so
all theorems are stated for an arbitrary TrigModel.
-/

namespace CarPool

/-- User identifiers (MongoDB ObjectIds rendered as strings, as the service
itself does via toString before comparing). -/
abbrev UserId := String

/-- The slice of the User document that the service selects:
select('name email contactInfo'). -/
structure UserInfo where
  name : String
  email : String
  contactInfo : String
  deriving DecidableEq

/-- Abstraction of the JavaScript Math trigonometric primitives used by the
distance formulas.  The claims below never depend on the value of a
trigonometric function, only on the surrounding branch structure, so the
model is kept abstract. -/
structure TrigModel where
  sin : ℚ → ℚ
  cos : ℚ → ℚ
  sqrt : ℚ → ℚ
  atan2 : ℚ → ℚ → ℚ
  pi : ℚ

/-- A GeoJSON Point as stored on ActiveSearch documents
(src/backend/models/ActiveSearch.js): coordinates[0] is the longitude and
coordinates[1] is the latitude. -/
structure GeoPoint where
  lng : ℚ
  lat : ℚ
  deriving DecidableEq

/-- The two search kinds of the ActiveSearch schema: poolCar offers a car,
findCar requests one. -/
inductive SearchType where
  | findCar
  | poolCar
  deriving DecidableEq

/-- An ActiveSearch document (src/backend/models/ActiveSearch.js). -/
structure Search where
  user : UserId
  pickup : String
  drop : String
  pickupCoords : GeoPoint
  dropCoords : GeoPoint
  type : SearchType
  deriving DecidableEq

/-- The client payload of a start_search event: pickup, drop, pickupCoords
(lat, lng), dropCoords (lat, lng), type. -/
structure SearchData where
  pickup : String
  drop : String
  pickupLat : ℚ
  pickupLng : ℚ
  dropLat : ℚ
  dropLng : ℚ
  type : SearchType
  deriving DecidableEq

/-- Status values stored on entries of the activeMatches map.  The service
only ever stores the strings pending_approval and connected; cancelled
matches are deleted from the map instead of being marked. -/
inductive MatchStatus where
  | pending_approval
  | connected
  deriving DecidableEq

/-- An entry of the activeMatches map, as built by
initiateInstantConnection (RideMatchingService.js lines 499-507) and later
mutated in place by handleMatchApproval and establishConnection. -/
structure Match where
  user1 : UserId
  user2 : UserId
  search1 : Search
  search2 : Search
  status : MatchStatus
  createdAt : ℕ
  approvals : List UserId
  chatRoomId : Option String
  deriving DecidableEq

/-- Reasons passed to cancelMatch. -/
inductive CancelReason where
  | denied
  | expired
  | disconnected
  deriving DecidableEq

/-- Events emitted to clients over the socket layer, with the payload
fields the claims refer to. -/
inductive Emit where
  | searchStarted (user : UserId) (searchType : SearchType)
  | searchError (user : UserId)
  | instantMatchFound (user : UserId) (matchId : String) (partnerId : UserId)
  | matchError (user : UserId) (message : String)
  | approvalSent (user : UserId) (partnerId : UserId)
  | partnerApproved (user : UserId) (partnerId : UserId)
  | connectionEstablished (user : UserId) (chatRoomId : String)
      (partnerId : UserId) (partnerContact : String)
  | systemChatMessage (chatRoomId : String)
  | matchCancelled (user : UserId) (message : String) (reason : CancelReason)
  deriving DecidableEq

/-- The mutable state of one RealTimeMatchingService instance together with
the ActiveSearch collection it reads and writes:
activeMatches is the in-memory Map of matchId to match object, searchesDB
is the ActiveSearch collection, and timers records the setTimeout calls
scheduled by initiateInstantConnection (matchId, absolute fire time in
seconds).  The JavaScript code never clears these timeouts. -/
structure ServiceState where
  activeMatches : List (String × Match)
  searchesDB : List Search
  timers : List (String × ℕ)
  deriving DecidableEq

/-- The environment a service instance runs in: the User collection and the
Math primitives, plus the geospatial near-query of the persistent store
(the $near / $maxDistance 5000 stage of findInstantMatches, an external
collaborator per the store interface). -/
structure Env where
  users : UserId → UserInfo
  tri : TrigModel
  near : GeoPoint → GeoPoint → Bool

/-- Lookup in the activeMatches map (Map.get). -/
def mapGet (l : List (String × Match)) (k : String) : Option Match :=
  (l.find? (fun kv => kv.1 = k)).map (fun kv => kv.2)

/-- Map.set: bind key k to v.  Iteration order of the map is irrelevant to
every embedded operation (userHasPendingMatch uses an order-insensitive
any), so the binding is modelled as remove-then-append. -/
def mapSet (l : List (String × Match)) (k : String) (v : Match) :
    List (String × Match) :=
  l.filter (fun kv => kv.1 ≠ k) ++ [(k, v)]

/-- Map.delete: remove the binding of key k. -/
def mapDelete (l : List (String × Match)) (k : String) :
    List (String × Match) :=
  l.filter (fun kv => kv.1 ≠ k)

/-- Set.add on the approvals set (a JavaScript Set of user id strings). -/
def setAdd (l : List UserId) (u : UserId) : List UserId :=
  if u ∈ l then l else l ++ [u]

/-- calculateDistance (RideMatchingService.js lines 846-868): zero for the
identical point, a flat-plane approximation for very close points, and the
haversine formula otherwise. -/
def calculateDistance (tri : TrigModel) (lat1 lng1 lat2 lng2 : ℚ) : ℚ :=
  if lat1 = lat2 ∧ lng1 = lng2 then 0
  else
    if |lat1 - lat2| < 1 / 10000 ∧ |lng1 - lng2| < 1 / 10000 then
      tri.sqrt (|lat1 - lat2| * |lat1 - lat2| + |lng1 - lng2| * |lng1 - lng2|)
        * 111000
    else
      let dLat := (lat2 - lat1) * tri.pi / 180
      let dLng := (lng2 - lng1) * tri.pi / 180
      let a := tri.sin (dLat / 2) * tri.sin (dLat / 2) +
        tri.cos (lat1 * tri.pi / 180) * tri.cos (lat2 * tri.pi / 180) *
          tri.sin (dLng / 2) * tri.sin (dLng / 2)
      let c := 2 * tri.atan2 (tri.sqrt a) (tri.sqrt (1 - a))
      6371000 * c

/-- areSearchesCompatible (RideMatchingService.js lines 360-379): true
exactly when the pickup points are within 5000 m and the drop points are
within 5000 m.  The function itself never looks at the search kinds. -/
def areSearchesCompatible (tri : TrigModel) (search1 search2 : Search) : Bool :=
  let pickupDistance := calculateDistance tri
    search1.pickupCoords.lat search1.pickupCoords.lng
    search2.pickupCoords.lat search2.pickupCoords.lng
  let dropDistance := calculateDistance tri
    search1.dropCoords.lat search1.dropCoords.lng
    search2.dropCoords.lat search2.dropCoords.lng
  decide (pickupDistance ≤ 5000) && decide (dropDistance ≤ 5000)

/-- The predicate of userHasPendingMatch applied to one map entry. -/
def pendingFor (uid : UserId) (km : String × Match) : Bool :=
  decide ((km.2.user1 = uid ∨ km.2.user2 = uid) ∧
    km.2.status = MatchStatus.pending_approval)

/-- userHasPendingMatch (RideMatchingService.js lines 344-355). -/
def userHasPendingMatch (st : ServiceState) (uid : UserId) : Bool :=
  st.activeMatches.any (pendingFor uid)

/-- Number of pending_approval entries of the map that have uid as user1 or
user2; the invariant claims bound this by one. -/
def pendingMatchCount (st : ServiceState) (uid : UserId) : ℕ :=
  st.activeMatches.countP (pendingFor uid)

/-- The chat room identifier built by establishConnection
(RideMatchingService.js line 673): the literal chat_ followed by the two
user ids of the match, in their stored order. -/
def chatRoomIdFor (user1 user2 : UserId) : String :=
  "chat_" ++ user1 ++ "_" ++ user2

/-- The match identifier built by initiateInstantConnection (line 494) and
rebuilt by cancelMatch (line 757): match_ followed by the two user ids in
their stored order. -/
def matchIdFor (user1 user2 : UserId) : String :=
  "match_" ++ user1 ++ "_" ++ user2

/-- initiateInstantConnection (RideMatchingService.js lines 490-565):
store a fresh pending_approval match under matchIdFor, notify both users
with instant_match_found, and schedule the 120 second expiry timeout.
Time is measured in seconds. -/
def initiateInstantConnection (now : ℕ) (search1 search2 : Search)
    (st : ServiceState) : ServiceState × List Emit :=
  let user1Id := search1.user
  let user2Id := search2.user
  let matchId := matchIdFor user1Id user2Id
  let m : Match :=
    { user1 := user1Id, user2 := user2Id, search1 := search1,
      search2 := search2, status := MatchStatus.pending_approval,
      createdAt := now, approvals := [], chatRoomId := none }
  ({ st with
      activeMatches := mapSet st.activeMatches matchId m,
      timers := st.timers ++ [(matchId, now + 120)] },
    [Emit.instantMatchFound user1Id matchId user2Id,
     Emit.instantMatchFound user2Id matchId user1Id])

/-- findInstantMatches (RideMatchingService.js lines 442-483): the store
query for other users searching for the opposite type whose pickup is near
(the $near stage, abstracted as env.near), then the in-code filter keeping
candidates whose pickup and drop are both within 5000 m. -/
def findInstantMatches (env : Env) (st : ServiceState)
    (activeSearch : Search) : List Search :=
  let oppositeType := if activeSearch.type = SearchType.findCar
    then SearchType.poolCar else SearchType.findCar
  let nearby := st.searchesDB.filter (fun m =>
    decide (m.user ≠ activeSearch.user) && decide (m.type = oppositeType) &&
      env.near activeSearch.pickupCoords m.pickupCoords)
  nearby.filter (fun m =>
    let pickupDistance := calculateDistance env.tri
      activeSearch.pickupCoords.lat activeSearch.pickupCoords.lng
      m.pickupCoords.lat m.pickupCoords.lng
    let dropDistance := calculateDistance env.tri
      activeSearch.dropCoords.lat activeSearch.dropCoords.lng
      m.dropCoords.lat m.dropCoords.lng
    decide (pickupDistance ≤ 5000) && decide (dropDistance ≤ 5000))

/-- The ActiveSearch document created by handleNewSearch from the client
payload (RideMatchingService.js lines 395-408); the stored GeoJSON points
put the longitude first. -/
def mkActiveSearch (searchData : SearchData) (userId : UserId) : Search :=
  { user := userId, pickup := searchData.pickup, drop := searchData.drop,
    pickupCoords := { lng := searchData.pickupLng, lat := searchData.pickupLat },
    dropCoords := { lng := searchData.dropLng, lat := searchData.dropLat },
    type := searchData.type }

/-- Modelled from the spec: the two 2dsphere indexes declared on
pickupCoords and dropCoords (src/backend/models/ActiveSearch.js lines
50-51) make the external store reject an insert whose indexed point is not
valid GeoJSON — the validation itself runs inside the store, outside this
repository.  Valid GeoJSON coordinates have latitude in [-90, 90] and
longitude in [-180, 180] (spec section 4.1). -/
def validGeoPoint (p : GeoPoint) : Bool :=
  decide (-90 ≤ p.lat ∧ p.lat ≤ 90 ∧ -180 ≤ p.lng ∧ p.lng ≤ 180)

/-- handleNewSearch (RideMatchingService.js lines 387-435) together with
the start_search socket handler that wraps it (src/unnamed/part_003 lines
38-46): delete every prior search of the user, then run
ActiveSearch.create.  When both stored points are valid GeoJSON the
document is inserted, search_started is emitted, and if
findInstantMatches returns anything a connection is immediately initiated
with the first candidate — no pending-match check is performed on this
path.  When a point is out of range the 2dsphere-indexed create throws
(see validGeoPoint), handleNewSearch rethrows, and the socket handler
converts the failure into a search_error event (whose store-generated
message text is not modelled); the prior search stays deleted and nothing
is inserted. -/
def handleNewSearch (env : Env) (now : ℕ) (searchData : SearchData)
    (userId : UserId) (st : ServiceState) : ServiceState × List Emit :=
  let activeSearch := mkActiveSearch searchData userId
  let stDel : ServiceState :=
    { st with searchesDB :=
        st.searchesDB.filter (fun s => decide (s.user ≠ userId)) }
  if validGeoPoint activeSearch.pickupCoords &&
      validGeoPoint activeSearch.dropCoords then
    let st1 : ServiceState :=
      { stDel with searchesDB := stDel.searchesDB ++ [activeSearch] }
    let started := [Emit.searchStarted userId searchData.type]
    match findInstantMatches env st1 activeSearch with
    | [] => (st1, started)
    | best :: _ =>
      let r := initiateInstantConnection now activeSearch best st1
      (r.1, started ++ r.2)
  else (stDel, [Emit.searchError userId])

/-- establishConnection (RideMatchingService.js lines 668-736): build the
chat room id, flip the match status to connected (the match object is
mutated in place, hence written back under its map key), notify both users
with the chat room id and the partner contact info, emit the system chat
message, and delete both users ActiveSearch records.  The match entry is
not removed from activeMatches. -/
def establishConnection (env : Env) (matchId : String) (m : Match)
    (st : ServiceState) : ServiceState × List Emit :=
  let chatRoomId := chatRoomIdFor m.user1 m.user2
  let m2 : Match :=
    { m with status := MatchStatus.connected, chatRoomId := some chatRoomId }
  let user1 := env.users m.user1
  let user2 := env.users m.user2
  ({ st with
      activeMatches := mapSet st.activeMatches matchId m2,
      searchesDB := st.searchesDB.filter (fun s =>
        decide (s.user ≠ m.user1 ∧ s.user ≠ m.user2)) },
    [Emit.connectionEstablished m.user1 chatRoomId m.user2 user2.contactInfo,
     Emit.connectionEstablished m.user2 chatRoomId m.user1 user1.contactInfo,
     Emit.systemChatMessage chatRoomId])

/-- handleMatchApproval (RideMatchingService.js lines 573-637): validate
that the match exists, is still pending, that the sender is a member and
has not already approved; then record the approval and, when both
approvals are present, run establishConnection, otherwise acknowledge the
approver and inform the partner. -/
def handleMatchApproval (env : Env) (matchId : String) (userId : UserId)
    (st : ServiceState) : ServiceState × List Emit :=
  match mapGet st.activeMatches matchId with
  | none => (st, [Emit.matchError userId "Match not found or expired"])
  | some m =>
    if m.status ≠ MatchStatus.pending_approval then
      (st, [Emit.matchError userId "Match is no longer available"])
    else if userId ≠ m.user1 ∧ userId ≠ m.user2 then
      (st, [Emit.matchError userId "You are not part of this match"])
    else if userId ∈ m.approvals then
      (st, [Emit.matchError userId "You have already approved this match"])
    else
      let m2 : Match := { m with approvals := setAdd m.approvals userId }
      let st2 : ServiceState :=
        { st with activeMatches := mapSet st.activeMatches matchId m2 }
      if m2.approvals.length = 2 then
        establishConnection env matchId m2 st2
      else
        let otherUserId := if userId = m.user1 then m.user2 else m.user1
        (st2, [Emit.approvalSent userId otherUserId,
               Emit.partnerApproved otherUserId userId])

/-- cancelMatch (RideMatchingService.js lines 743-765): notify both users
and delete the entry whose key is rebuilt from the stored user pair. -/
def cancelMatch (m : Match) (reason : CancelReason) (st : ServiceState) :
    ServiceState × List Emit :=
  let message := if reason = CancelReason.denied
    then "Match was declined by your partner" else "Match expired"
  let matchId := matchIdFor m.user1 m.user2
  ({ st with activeMatches := mapDelete st.activeMatches matchId },
    [Emit.matchCancelled m.user1 message reason,
     Emit.matchCancelled m.user2 message reason])

/-- handleMatchDenial (RideMatchingService.js lines 645-662): look the
match up and cancel it with reason denied.  No membership or status
validation is performed before cancelling. -/
def handleMatchDenial (matchId : String) (userId : UserId)
    (st : ServiceState) : ServiceState × List Emit :=
  match mapGet st.activeMatches matchId with
  | none => (st, [Emit.matchError userId "Match not found or expired"])
  | some m => cancelMatch m CancelReason.denied st

/-- expireMatch (RideMatchingService.js lines 771-776): the deferred
expiry action; it cancels with reason expired only when the id still
resolves to a match in status pending_approval. -/
def expireMatch (matchId : String) (st : ServiceState) :
    ServiceState × List Emit :=
  match mapGet st.activeMatches matchId with
  | none => (st, [])
  | some m =>
    if m.status = MatchStatus.pending_approval then
      cancelMatch m CancelReason.expired st
    else (st, [])

/-- The nested loops of performContinuousMatching (RideMatchingService.js
lines 314-335): for each findCar search whose user has no pending match,
find the first poolCar search whose user has no pending match and which is
compatible, initiate the connection, and move on to the next findCar
search. -/
def scanLoop (env : Env) (now : ℕ) (poolCarSearches : List Search) :
    List Search → ServiceState → ServiceState × List Emit
  | [], st => (st, [])
  | f :: rest, st =>
    if userHasPendingMatch st f.user then
      scanLoop env now poolCarSearches rest st
    else
      match poolCarSearches.find? (fun p =>
          !userHasPendingMatch st p.user &&
            areSearchesCompatible env.tri f p) with
      | none => scanLoop env now poolCarSearches rest st
      | some p =>
        let r := initiateInstantConnection now f p st
        let r2 := scanLoop env now poolCarSearches rest r.1
        (r2.1, r.2 ++ r2.2)

/-- performContinuousMatching (RideMatchingService.js lines 290-339): with
fewer than two active searches nothing happens; otherwise the searches are
split by type and the greedy scan pairs findCar searches with poolCar
searches. -/
def performContinuousMatching (env : Env) (now : ℕ) (st : ServiceState) :
    ServiceState × List Emit :=
  if st.searchesDB.length < 2 then (st, [])
  else
    let findCarSearches := st.searchesDB.filter
      (fun s => decide (s.type = SearchType.findCar))
    let poolCarSearches := st.searchesDB.filter
      (fun s => decide (s.type = SearchType.poolCar))
    scanLoop env now poolCarSearches findCarSearches st

/-- A world of the running coordinator: the current time in seconds, the
service state, and the cumulative list of events emitted so far. -/
structure World where
  now : ℕ
  st : ServiceState
  log : List Emit
  deriving DecidableEq

/-- The empty coordinator at time zero. -/
def initialWorld : World :=
  { now := 0,
    st := { activeMatches := [], searchesDB := [], timers := [] },
    log := [] }

/-- Effect of a start_search event arriving at time t. -/
def applyNewSearch (env : Env) (searchData : SearchData) (uid : UserId)
    (t : ℕ) (w : World) : World :=
  let r := handleNewSearch env t searchData uid w.st
  { now := t, st := r.1, log := w.log ++ r.2 }

/-- Effect of an approve_match event arriving at time t. -/
def applyApproval (env : Env) (matchId : String) (uid : UserId) (t : ℕ)
    (w : World) : World :=
  let r := handleMatchApproval env matchId uid w.st
  { now := t, st := r.1, log := w.log ++ r.2 }

/-- Effect of a deny_match event arriving at time t. -/
def applyDenial (matchId : String) (uid : UserId) (t : ℕ) (w : World) :
    World :=
  let r := handleMatchDenial matchId uid w.st
  { now := t, st := r.1, log := w.log ++ r.2 }

/-- Effect of one periodic matching tick at time t. -/
def applyScanTick (env : Env) (t : ℕ) (w : World) : World :=
  let r := performContinuousMatching env t w.st
  { now := t, st := r.1, log := w.log ++ r.2 }

/-- Effect of a scheduled expiry timeout firing at time t: the deferred
action runs once and is consumed. -/
def applyTimerFire (matchId : String) (tf t : ℕ) (w : World) : World :=
  let r := expireMatch matchId w.st
  { now := t,
    st := { r.1 with timers := w.st.timers.erase (matchId, tf) },
    log := w.log ++ r.2 }

/-- One step of the coordinator: a client event, a periodic tick, or a
scheduled timeout firing at or after its due time.  Time never goes
backwards. -/
inductive Step (env : Env) : World → World → Prop where
  | newSearch (w : World) (searchData : SearchData) (uid : UserId) (t : ℕ)
      (h : w.now ≤ t) : Step env w (applyNewSearch env searchData uid t w)
  | approve (w : World) (matchId : String) (uid : UserId) (t : ℕ)
      (h : w.now ≤ t) : Step env w (applyApproval env matchId uid t w)
  | deny (w : World) (matchId : String) (uid : UserId) (t : ℕ)
      (h : w.now ≤ t) : Step env w (applyDenial matchId uid t w)
  | scanTick (w : World) (t : ℕ) (h : w.now ≤ t) :
      Step env w (applyScanTick env t w)
  | timerFire (w : World) (matchId : String) (tf t : ℕ) (h : w.now ≤ t)
      (hdue : tf ≤ t) (hmem : (matchId, tf) ∈ w.st.timers) :
      Step env w (applyTimerFire matchId tf t w)

/-- Worlds reachable from the empty coordinator. -/
def Reachable (env : Env) (w : World) : Prop :=
  Relation.ReflTransGen (Step env) initialWorld w

/-!  The separate RideMatchingService class (RideMatchingService.js lines
4-255), whose haversine helper guards against falsy coordinate fields. -/

/-- A client-supplied coordinate object whose lat and lng fields may be
absent; none models a missing field. -/
structure JsCoord where
  lat : Option ℚ
  lng : Option ℚ
  deriving DecidableEq

/-- JavaScript falsiness of a possibly-missing numeric field: missing or
equal to zero. -/
def falsyNum (v : Option ℚ) : Bool :=
  match v with
  | none => true
  | some q => decide (q = 0)

/-- calculateHaversineDistance (RideMatchingService.js lines 218-236):
Infinity (modelled as the top element) when either coordinate object is
missing or any lat or lng field is falsy, otherwise the haversine value. -/
def calculateHaversineDistance (tri : TrigModel) :
    Option JsCoord → Option JsCoord → WithTop ℚ
  | none, _ => ⊤
  | some _, none => ⊤
  | some coord1, some coord2 =>
    if falsyNum coord1.lat || falsyNum coord1.lng ||
        falsyNum coord2.lat || falsyNum coord2.lng then ⊤
    else
      let lat1 := coord1.lat.getD 0
      let lng1 := coord1.lng.getD 0
      let lat2 := coord2.lat.getD 0
      let lng2 := coord2.lng.getD 0
      let lat1Rad := lat1 * tri.pi / 180
      let lat2Rad := lat2 * tri.pi / 180
      let deltaLatRad := (lat2 - lat1) * tri.pi / 180
      let deltaLngRad := (lng2 - lng1) * tri.pi / 180
      let a := tri.sin (deltaLatRad / 2) * tri.sin (deltaLatRad / 2) +
        tri.cos lat1Rad * tri.cos lat2Rad *
          tri.sin (deltaLngRad / 2) * tri.sin (deltaLngRad / 2)
      let c := 2 * tri.atan2 (tri.sqrt a) (tri.sqrt (1 - a))
      ((6371000 * c : ℚ) : WithTop ℚ)

/-- The input guard of findMatches (RideMatchingService.js lines 20-22):
the search is rejected unless pickupCoords is present with truthy lat and
lng fields. -/
def findMatchesCheck (pickupCoords : Option JsCoord) : Except String Unit :=
  match pickupCoords with
  | none => Except.error "Pickup coordinates are required"
  | some c =>
    if falsyNum c.lat || falsyNum c.lng then
      Except.error "Pickup coordinates are required"
    else Except.ok ()

/-!  The request validation of POST /start-realtime-search
(src/backend/routes/matching.js lines 11-36). -/

/-- The request body of the start-realtime-search route; none models a
missing field and the empty string is the falsy string. -/
structure StartSearchBody where
  pickup : Option String
  drop : Option String
  pickupCoords : Option JsCoord
  dropCoords : Option JsCoord
  type : Option String
  deriving DecidableEq

/-- JavaScript falsiness of a possibly-missing string field. -/
def falsyStr (v : Option String) : Bool :=
  match v with
  | none => true
  | some s => decide (s = "")

/-- The checks of the start-realtime-search route, in source order: all
fields present and truthy, type one of findCar or poolCar, and all four
coordinate fields truthy.  No range check is performed anywhere. -/
def startRealtimeSearchCheck (b : StartSearchBody) : Except String Unit :=
  if falsyStr b.pickup || falsyStr b.drop || b.pickupCoords.isNone ||
      b.dropCoords.isNone || falsyStr b.type then
    Except.error
      "All fields are required: pickup, drop, pickupCoords, dropCoords, type"
  else if !(decide (b.type = some "findCar") ||
      decide (b.type = some "poolCar")) then
    Except.error "Type must be either \"findCar\" or \"poolCar\""
  else
    match b.pickupCoords, b.dropCoords with
    | some pc, some dc =>
      if falsyNum pc.lat || falsyNum pc.lng || falsyNum dc.lat ||
          falsyNum dc.lng then
        Except.error "Invalid coordinates provided"
      else Except.ok ()
    | _, _ => Except.error "Invalid coordinates provided"

/-!  Concrete fixtures used by the counterexamples and witnesses. -/

/-- A concrete trigonometric model; the scenarios below only ever exercise
the identical-point branch of the distance code, so its values are never
consulted. -/
def tri0 : TrigModel :=
  { sin := fun _ => 0, cos := fun _ => 0, sqrt := fun _ => 0,
    atan2 := fun _ _ => 0, pi := 0 }

/-- A concrete user collection. -/
def users0 : UserId → UserInfo :=
  fun u => { name := u, email := u ++ "@mail", contactInfo := "phone-" ++ u }

/-- A concrete environment whose store near-query answers true exactly for
identical points (all scenario searches share one pickup point, which is
within any positive radius of itself). -/
def env0 : Env :=
  { users := users0, tri := tri0, near := fun a b => decide (a = b) }

/-- A findCar search payload; every scenario search uses the same pickup
and drop points, so all distances evaluate through the identical-point
branch to zero. -/
def dataFind : SearchData :=
  { pickup := "P", drop := "D", pickupLat := 10, pickupLng := 20,
    dropLat := 30, dropLng := 40, type := SearchType.findCar }

/-- A poolCar search payload on the same route. -/
def dataPool : SearchData :=
  { pickup := "P", drop := "D", pickupLat := 10, pickupLng := 20,
    dropLat := 30, dropLng := 40, type := SearchType.poolCar }

/-- Scenario for the pending-match invariant: alice starts a findCar
search, bob starts a poolCar search (instant match with alice), then erin
starts a poolCar search and the instant-match path pairs her with alice as
well. -/
def doublePendingWorld : World :=
  applyNewSearch env0 dataPool "erin" 2
    (applyNewSearch env0 dataPool "bob" 1
      (applyNewSearch env0 dataFind "alice" 0 initialWorld))

/-- Scenario for the expiry timer: alice and bob are matched at time 2
(timer due at 122), alice denies at time 10, bob searches again at time 30
and is instantly re-matched with alice under the same match id (second
timer due at 150). -/
def staleTimerWorld : World :=
  applyNewSearch env0 dataPool "bob" 30
    (applyDenial "match_bob_alice" "alice" 10
      (applyNewSearch env0 dataPool "bob" 2
        (applyNewSearch env0 dataFind "alice" 0 initialWorld)))

/-- The stale timer scheduled at time 2 fires at its due time 122 and
expires the re-created match, which is only 92 seconds old. -/
def staleFiredWorld : World :=
  applyTimerFire "match_bob_alice" 122 122 staleTimerWorld

/-- The ActiveSearch document of the alice fixture. -/
def searchAlice : Search := mkActiveSearch dataFind "alice"

/-- The ActiveSearch document of the bob fixture. -/
def searchBob : Search := mkActiveSearch dataPool "bob"

/-- A pending match between bob and alice, as initiateInstantConnection
stores it when bob's search instantly matches alice. -/
def matchBA : Match :=
  { user1 := "bob", user2 := "alice", search1 := searchBob,
    search2 := searchAlice, status := MatchStatus.pending_approval,
    createdAt := 2, approvals := [], chatRoomId := none }

/-- The same match after alice approved. -/
def matchBAApproved : Match := { matchBA with approvals := ["alice"] }

/-- A coordinator state holding the pending bob-alice match and both
ActiveSearch records. -/
def stPending : ServiceState :=
  { activeMatches := [("match_bob_alice", matchBA)],
    searchesDB := [searchAlice, searchBob],
    timers := [("match_bob_alice", 122)] }

/-- The same state after alice approved. -/
def stOneApproval : ServiceState :=
  { activeMatches := [("match_bob_alice", matchBAApproved)],
    searchesDB := [searchAlice, searchBob],
    timers := [("match_bob_alice", 122)] }

/-- A state with two compatible searches and no matches, as seen by one
periodic scan tick. -/
def stScan : ServiceState :=
  { activeMatches := [], searchesDB := [searchAlice, searchBob],
    timers := [] }

/-- The match the scan creates from stScan: the findCar search is user1. -/
def matchScanAB : Match :=
  { user1 := "alice", user2 := "bob", search1 := searchAlice,
    search2 := searchBob, status := MatchStatus.pending_approval,
    createdAt := 0, approvals := [], chatRoomId := none }

/-- A search payload with latitude 91, outside the legal range. -/
def dataBadLat : SearchData :=
  { pickup := "P", drop := "D", pickupLat := 91, pickupLng := 20,
    dropLat := 30, dropLng := 40, type := SearchType.findCar }

/-- An HTTP request body whose pickup latitude is exactly 0 — inside
[-90, 90], but falsy for the route checks. -/
def zeroLatBody : StartSearchBody :=
  { pickup := some "P", drop := some "D",
    pickupCoords := some { lat := some 0, lng := some 20 },
    dropCoords := some { lat := some 30, lng := some 40 },
    type := some "findCar" }

/-- A well-formed HTTP request body for the start-realtime-search route. -/
def goodBody : StartSearchBody :=
  { pickup := some "P", drop := some "D",
    pickupCoords := some { lat := some 10, lng := some 20 },
    dropCoords := some { lat := some 30, lng := some 40 },
    type := some "findCar" }

/-- The guard condition of calculateHaversineDistance (line 219): either
coordinate object missing, or any lat or lng field falsy. -/
def haversineGuard : Option JsCoord → Option JsCoord → Bool
  | some coord1, some coord2 =>
    falsyNum coord1.lat || falsyNum coord1.lng ||
      falsyNum coord2.lat || falsyNum coord2.lng
  | _, _ => true

/-!  Helper lemmas about the map operations. -/

/-- Looking a key up right after binding it returns the new value. -/
theorem mapGet_mapSet_self (l : List (String × Match)) (k : String)
    (v : Match) : mapGet (mapSet l k v) k = some v := by
  unfold mapGet mapSet
  induction l with
  | nil => simp
  | cons a l ih =>
    rcases eq_or_ne a.1 k with h | h
    · simp [List.filter_cons, h, ih]
    · simp [List.filter_cons, h, List.find?_cons, ih]

/-- Looking a key up right after deleting it returns nothing. -/
theorem mapGet_mapDelete_self (l : List (String × Match)) (k : String) :
    mapGet (mapDelete l k) k = none := by
  unfold mapGet mapDelete
  induction l with
  | nil => simp
  | cons a l ih =>
    rcases eq_or_ne a.1 k with h | h
    · simp [List.filter_cons, h, ih]
    · simp [List.filter_cons, h, List.find?_cons, ih]

/-- A member of the map after a binding was either there before or is the
new binding. -/
theorem mem_mapSet {l : List (String × Match)} {k : String} {v : Match}
    {kv : String × Match} (h : kv ∈ mapSet l k v) : kv ∈ l ∨ kv = (k, v) := by
  unfold mapSet at h
  rcases List.mem_append.mp h with h' | h'
  · exact Or.inl (List.mem_of_mem_filter h')
  · exact Or.inr (List.mem_singleton.mp h')

/-- Counting through a binding: the old binding of the key is dropped and
the new entry contributes at most one. -/
theorem countP_mapSet (l : List (String × Match)) (k : String) (v : Match)
    (p : String × Match → Bool) :
    (mapSet l k v).countP p =
      ((l.filter fun kv => kv.1 ≠ k).countP p) + (if p (k, v) then 1 else 0) := by
  unfold mapSet
  rcases h : p (k, v) with _ | _ <;>
    simp [List.countP_append, List.countP_cons, h]

/-- Counting over a filtered list never exceeds counting over the list. -/
theorem countP_filter_le (l : List (String × Match))
    (p q : String × Match → Bool) :
    (l.filter q).countP p ≤ l.countP p :=
  (List.filter_sublist l).countP_le p

/-- A user with no pending match has pending-match count zero. -/
theorem pendingMatchCount_eq_zero {st : ServiceState} {u : UserId}
    (h : userHasPendingMatch st u = false) : pendingMatchCount st u = 0 := by
  unfold userHasPendingMatch at h
  unfold pendingMatchCount
  rw [List.countP_eq_zero]
  intro a ha
  rcases List.any_eq_false.mp h a ha with h'
  simp [h']

/-- C9 counterexample: the chat room identifier is not order-independent;
for the concrete users alice and bob the pair (alice, bob) and the swapped
pair (bob, alice) produce different identifiers. -/
theorem chatRoomId_not_symmetric :
    chatRoomIdFor "alice" "bob" ≠ chatRoomIdFor "bob" "alice" := by decide

/-- C9 (amended): the chat room identifier created on connection
establishment is a deterministic function of exactly the two user ids of
the match, namely the string chat_ followed by user1 and user2 in their
stored order, and both connection_established notifications and the system
chat message carry this one identifier; it is order-dependent. -/
theorem chatRoomId_deterministic (env : Env) (matchId : String) (m : Match)
    (st : ServiceState) :
    chatRoomIdFor m.user1 m.user2 = "chat_" ++ m.user1 ++ "_" ++ m.user2 ∧
    (establishConnection env matchId m st).2 =
      [Emit.connectionEstablished m.user1 (chatRoomIdFor m.user1 m.user2)
        m.user2 (env.users m.user2).contactInfo,
       Emit.connectionEstablished m.user2 (chatRoomIdFor m.user1 m.user2)
        m.user1 (env.users m.user1).contactInfo,
       Emit.systemChatMessage (chatRoomIdFor m.user1 m.user2)] :=
  ⟨rfl, rfl⟩

/-- C10: calculateHaversineDistance returns Infinity whenever either
coordinate object is missing or any of the four lat or lng fields is
missing or exactly zero, and findMatches rejects any search whose pickup
latitude or longitude equals zero with the pickup-coordinates-required
error. -/
theorem haversine_falsy_infinity (tri : TrigModel)
    (coord1 coord2 : Option JsCoord) (c : JsCoord)
    (hguard : haversineGuard coord1 coord2 = true)
    (hzero : c.lat = some 0 ∨ c.lng = some 0) :
    calculateHaversineDistance tri coord1 coord2 = ⊤ ∧
    findMatchesCheck (some c) =
      Except.error "Pickup coordinates are required" := by
  constructor
  · cases coord1 with
    | none => rfl
    | some a =>
      cases coord2 with
      | none => rfl
      | some b =>
        have hg : (falsyNum a.lat || falsyNum a.lng ||
            falsyNum b.lat || falsyNum b.lng) = true := by
          simpa [haversineGuard] using hguard
        exact if_pos hg
  · have hz : (falsyNum c.lat || falsyNum c.lng) = true := by
      rcases hzero with h | h <;> simp [falsyNum, h]
    exact if_pos hz

/-- C6: a second approve_match from a user who already approved a pending
match yields the already-approved error and leaves the entire service
state unchanged, so the approvals set is untouched and no second
connection is established. -/
theorem duplicate_approval_rejected (env : Env) (st : ServiceState)
    (matchId : String) (m : Match) (userId : UserId)
    (hget : mapGet st.activeMatches matchId = some m)
    (hmem : userId = m.user1 ∨ userId = m.user2)
    (hst : m.status = MatchStatus.pending_approval)
    (happ : userId ∈ m.approvals) :
    handleMatchApproval env matchId userId st =
      (st, [Emit.matchError userId "You have already approved this match"]) := by
  unfold handleMatchApproval
  rw [hget]
  rcases hmem with h | h <;> subst h <;> simp [hst, happ]

/-- C5 counterexample: a deny_match from the outsider eve, who is neither
member of the pending bob-alice match, does not fail with a
not-part-of-match error: it cancels the match, mutating the shared state
and notifying both members. -/
theorem outsider_denial_cancels :
    (handleMatchDenial "match_bob_alice" "eve" stPending).1.activeMatches
        = [] ∧
    (handleMatchDenial "match_bob_alice" "eve" stPending).2 =
      [Emit.matchCancelled "bob" "Match was declined by your partner"
        CancelReason.denied,
       Emit.matchCancelled "alice" "Match was declined by your partner"
        CancelReason.denied] := by
  constructor <;> rfl

/-- C5 (amended): an approve_match whose sender is neither userA nor userB
of the referenced pending match fails with the not-part-of-match error and
leaves the match and all shared state unchanged; a deny_match however is
not membership-validated: it proceeds straight to cancelMatch for any
sender. -/
theorem approval_requires_membership (env : Env) (st : ServiceState)
    (matchId : String) (m : Match) (userId : UserId)
    (hget : mapGet st.activeMatches matchId = some m)
    (h1 : userId ≠ m.user1) (h2 : userId ≠ m.user2) :
    (m.status = MatchStatus.pending_approval →
      handleMatchApproval env matchId userId st =
        (st, [Emit.matchError userId "You are not part of this match"])) ∧
    handleMatchDenial matchId userId st = cancelMatch m CancelReason.denied st := by
  constructor
  · intro hst
    unfold handleMatchApproval
    rw [hget]
    simp [hst, h1, h2]
  · unfold handleMatchDenial
    rw [hget]

/-- C7: when a member of a pending match denies it, the match is cancelled
and removed from the working set, both users are notified, no connection
is established, and both users ActiveSearch records are left untouched. -/
theorem member_denial_preserves_searches (st : ServiceState)
    (matchId : String) (m : Match) (userId : UserId)
    (hget : mapGet st.activeMatches matchId = some m)
    (hkey : matchId = matchIdFor m.user1 m.user2)
    (_hst : m.status = MatchStatus.pending_approval)
    (_hmem : userId = m.user1 ∨ userId = m.user2) :
    (handleMatchDenial matchId userId st).1.searchesDB = st.searchesDB ∧
    mapGet (handleMatchDenial matchId userId st).1.activeMatches matchId
        = none ∧
    (handleMatchDenial matchId userId st).2 =
      [Emit.matchCancelled m.user1 "Match was declined by your partner"
        CancelReason.denied,
       Emit.matchCancelled m.user2 "Match was declined by your partner"
        CancelReason.denied] := by
  unfold handleMatchDenial
  rw [hget]
  unfold cancelMatch
  refine ⟨rfl, ?_, rfl⟩
  subst hkey
  exact mapGet_mapDelete_self _ _

/-- C2 counterexample: after the second approval the match is not
discarded from the working set of active matches; the bob-alice entry is
still present, now with status connected. -/
theorem connected_match_not_discarded :
    (mapGet (handleMatchApproval env0 "match_bob_alice" "bob"
        stOneApproval).1.activeMatches "match_bob_alice").map Match.status
      = some MatchStatus.connected ∧
    (handleMatchApproval env0 "match_bob_alice" "bob"
        stOneApproval).1.activeMatches.length = 1 := by
  constructor <;> rfl

/-- C2 (amended): when the second distinct member approves a pending match
the match transitions to connected, the chat room is created, both users
ActiveSearch records are deleted, and both users are notified with the
chat room id and the partner contact info; the match entry however remains
in the working set with status connected instead of being discarded. -/
theorem second_approval_establishes (env : Env) (st : ServiceState)
    (matchId : String) (m : Match) (u v : UserId)
    (hget : mapGet st.activeMatches matchId = some m)
    (hst : m.status = MatchStatus.pending_approval)
    (happ : m.approvals = [u])
    (hv : v = m.user1 ∨ v = m.user2) (hne : v ≠ u) :
    mapGet (handleMatchApproval env matchId v st).1.activeMatches matchId =
      some { m with
              approvals := [u, v],
              status := MatchStatus.connected,
              chatRoomId := some (chatRoomIdFor m.user1 m.user2) } ∧
    (handleMatchApproval env matchId v st).1.searchesDB =
      st.searchesDB.filter (fun s =>
        decide (s.user ≠ m.user1 ∧ s.user ≠ m.user2)) ∧
    (handleMatchApproval env matchId v st).2 =
      [Emit.connectionEstablished m.user1 (chatRoomIdFor m.user1 m.user2)
        m.user2 (env.users m.user2).contactInfo,
       Emit.connectionEstablished m.user2 (chatRoomIdFor m.user1 m.user2)
        m.user1 (env.users m.user1).contactInfo,
       Emit.systemChatMessage (chatRoomIdFor m.user1 m.user2)] := by
  have hnotmem : v ∉ m.approvals := by simp [happ, hne]
  have hcond : ¬ (v ≠ m.user1 ∧ v ≠ m.user2) := by
    rcases hv with h | h <;> simp [h]
  have hlen : (setAdd m.approvals v).length = 2 := by
    simp [setAdd, happ, hne]
  unfold handleMatchApproval
  rw [hget]
  simp only [hst, if_pos, if_neg, hcond, hnotmem, hlen, ite_false, ite_true,
    not_true, not_false_iff, ne_eq, not_not]
  unfold establishConnection
  refine ⟨?_, rfl, rfl⟩
  rw [mapGet_mapSet_self]
  simp [setAdd, happ, hne]

/-- Initiating a connection between two users who both have no pending
match keeps every user at no more than one pending match. -/
theorem initiate_preserves_pending (now : ℕ) (f p : Search)
    (st : ServiceState)
    (hf : userHasPendingMatch st f.user = false)
    (hp : userHasPendingMatch st p.user = false)
    (hinv : ∀ u, pendingMatchCount st u ≤ 1) :
    ∀ u, pendingMatchCount (initiateInstantConnection now f p st).1 u ≤ 1 := by
  intro u
  show (mapSet st.activeMatches (matchIdFor f.user p.user) _).countP
    (pendingFor u) ≤ 1
  rw [countP_mapSet]
  by_cases hu : pendingFor u (matchIdFor f.user p.user,
      { user1 := f.user, user2 := p.user, search1 := f, search2 := p,
        status := MatchStatus.pending_approval, createdAt := now,
        approvals := [], chatRoomId := none }) = true
  · have huser : u = f.user ∨ u = p.user := by
      unfold pendingFor at hu
      rcases of_decide_eq_true hu with ⟨h, _⟩
      rcases h with h | h
      · exact Or.inl h.symm
      · exact Or.inr h.symm
    have hzero : st.activeMatches.countP (pendingFor u) = 0 := by
      rcases huser with h | h <;> subst h
      · exact pendingMatchCount_eq_zero hf
      · exact pendingMatchCount_eq_zero hp
    have hle := countP_filter_le st.activeMatches (pendingFor u)
      (fun kv => kv.1 ≠ matchIdFor f.user p.user)
    rw [if_pos hu]
    omega
  · have hle := countP_filter_le st.activeMatches (pendingFor u)
      (fun kv => kv.1 ≠ matchIdFor f.user p.user)
    have hb := hinv u
    unfold pendingMatchCount at hb
    rw [if_neg hu]
    omega

/-- The greedy scan loop preserves the at-most-one-pending-match bound:
both the outer-loop user and the inner-loop candidate are skipped when
they already have a pending match. -/
theorem scanLoop_preserves_pending (env : Env) (now : ℕ)
    (ps : List Search) (fs : List Search) (st : ServiceState)
    (hinv : ∀ u, pendingMatchCount st u ≤ 1) :
    ∀ u, pendingMatchCount (scanLoop env now ps fs st).1 u ≤ 1 := by
  induction fs generalizing st with
  | nil => simpa [scanLoop] using hinv
  | cons f rest ih =>
    by_cases hf : userHasPendingMatch st f.user
    · simpa [scanLoop, hf] using ih st hinv
    · rcases hfind : ps.find? (fun p =>
          !userHasPendingMatch st p.user &&
            areSearchesCompatible env.tri f p) with _ | p
      · simpa [scanLoop, hf, hfind] using ih st hinv
      · have hpred := List.find?_some hfind
        have hp : userHasPendingMatch st p.user = false := by
          cases htest : userHasPendingMatch st p.user with
          | false => rfl
          | true => rw [htest] at hpred; simp at hpred
        have hf2 : userHasPendingMatch st f.user = false := by
          simpa using hf
        have hstep := initiate_preserves_pending now f p st hf2 hp hinv
        simpa [scanLoop, hf, hfind] using
          ih (initiateInstantConnection now f p st).1 hstep

/-- C1 (amended): the periodic scan checks userHasPendingMatch for both
candidate users before proposing a pairing, so one tick of
performContinuousMatching preserves the at-most-one-pending-match-per-user
invariant; the instant-match path of handleNewSearch performs no such
check and violates the invariant (see the reachable counterexample). -/
theorem scan_preserves_single_pending (env : Env) (now : ℕ)
    (st : ServiceState) (hinv : ∀ u, pendingMatchCount st u ≤ 1) :
    ∀ u, pendingMatchCount (performContinuousMatching env now st).1 u ≤ 1 := by
  unfold performContinuousMatching
  by_cases h : st.searchesDB.length < 2
  · simpa [h] using hinv
  · simpa [h] using scanLoop_preserves_pending env now _ _ st hinv

/-- C1 counterexample: from the empty coordinator, alice searches, bob
searches and is instantly matched with alice, then erin searches and the
instant-match path of handleNewSearch pairs her with alice as well without
checking for an existing pending match: the reachable world has alice in
two distinct pending_approval matches. -/
theorem instant_path_breaks_invariant :
    Reachable env0 doublePendingWorld ∧
    pendingMatchCount doublePendingWorld.st "alice" = 2 := by
  constructor
  · exact Relation.ReflTransGen.tail
      (Relation.ReflTransGen.tail
        (Relation.ReflTransGen.tail Relation.ReflTransGen.refl
          (Step.newSearch initialWorld dataFind "alice" 0 (by decide)))
        (Step.newSearch _ dataPool "bob" 1 (by decide)))
      (Step.newSearch _ dataPool "erin" 2 (by decide))
  · decide

/-- Every match entry present after the scan loop was either present
before it or pairs a findCar search with a compatible poolCar search. -/
theorem scanLoop_mem_good (env : Env) (now : ℕ) (ps : List Search)
    (fs : List Search) (st : ServiceState)
    (hfs : ∀ f ∈ fs, f.type = SearchType.findCar)
    (hps : ∀ p ∈ ps, p.type = SearchType.poolCar)
    (k : String) (m : Match)
    (hmem : (k, m) ∈ (scanLoop env now ps fs st).1.activeMatches) :
    (k, m) ∈ st.activeMatches ∨
      (m.search1.type = SearchType.findCar ∧
       m.search2.type = SearchType.poolCar ∧
       areSearchesCompatible env.tri m.search1 m.search2 = true) := by
  induction fs generalizing st with
  | nil => exact Or.inl (by simpa [scanLoop] using hmem)
  | cons f rest ih =>
    have hfs2 : ∀ g ∈ rest, g.type = SearchType.findCar :=
      fun g hg => hfs g (List.mem_cons_of_mem f hg)
    by_cases hf : userHasPendingMatch st f.user
    · exact ih st hfs2 (by simpa [scanLoop, hf] using hmem)
    · rcases hfind : ps.find? (fun p =>
          !userHasPendingMatch st p.user &&
            areSearchesCompatible env.tri f p) with _ | p
      · exact ih st hfs2 (by simpa [scanLoop, hf, hfind] using hmem)
      · have hpred := List.find?_some hfind
        have hcompat : areSearchesCompatible env.tri f p = true := by
          cases htest : areSearchesCompatible env.tri f p with
          | true => rfl
          | false => rw [htest] at hpred; simp at hpred
        have hptype : p.type = SearchType.poolCar :=
          hps p (List.mem_of_find?_eq_some hfind)
        have hftype : f.type = SearchType.findCar :=
          hfs f (List.mem_cons_self f rest)
        have hmem2 : (k, m) ∈
            (scanLoop env now ps rest
              (initiateInstantConnection now f p st).1).1.activeMatches := by
          simpa [scanLoop, hf, hfind] using hmem
        rcases ih (initiateInstantConnection now f p st).1 hfs2 hmem2 with
          h | h
        · rcases mem_mapSet h with h2 | h2
          · exact Or.inl h2
          · refine Or.inr ?_
            have hm : m =
                { user1 := f.user, user2 := p.user, search1 := f,
                  search2 := p, status := MatchStatus.pending_approval,
                  createdAt := now, approvals := [], chatRoomId := none } :=
              congrArg Prod.snd h2
            subst hm
            exact ⟨hftype, hptype, hcompat⟩
        · exact Or.inr h

/-- C4 counterexample: the compatibility decision is not an if-and-only-if
with the opposite-kinds condition: two findCar searches on the same route
are declared compatible by areSearchesCompatible even though their kinds
are equal, not opposite. -/
theorem compat_ignores_kind :
    areSearchesCompatible tri0 searchAlice (mkActiveSearch dataFind "erin")
        = true ∧
    searchAlice.type = SearchType.findCar ∧
    (mkActiveSearch dataFind "erin").type = SearchType.findCar := by
  decide

/-- C4 (amended): areSearchesCompatible returns true exactly when the
pickup points are within 5000 m and the drop points are within 5000 m,
both required (AND); the function does not examine the kinds, and the
opposite-kind requirement is enforced by the callers instead: every
pairing the periodic scan proposes joins a findCar search with a poolCar
search that areSearchesCompatible accepts. -/
theorem compatibility_decision :
    (∀ (tri : TrigModel) (s1 s2 : Search),
      areSearchesCompatible tri s1 s2 = true ↔
        (calculateDistance tri s1.pickupCoords.lat s1.pickupCoords.lng
            s2.pickupCoords.lat s2.pickupCoords.lng ≤ 5000 ∧
         calculateDistance tri s1.dropCoords.lat s1.dropCoords.lng
            s2.dropCoords.lat s2.dropCoords.lng ≤ 5000)) ∧
    (∀ (env : Env) (now : ℕ) (st : ServiceState) (k : String) (m : Match),
      (k, m) ∈ (performContinuousMatching env now st).1.activeMatches →
        (k, m) ∈ st.activeMatches ∨
          (m.search1.type = SearchType.findCar ∧
           m.search2.type = SearchType.poolCar ∧
           areSearchesCompatible env.tri m.search1 m.search2 = true)) := by
  constructor
  · intro tri s1 s2
    unfold areSearchesCompatible
    simp
  · intro env now st k m hmem
    unfold performContinuousMatching at hmem
    by_cases h : st.searchesDB.length < 2
    · exact Or.inl (by simpa [h] using hmem)
    · refine scanLoop_mem_good env now _ _ st ?_ ?_ k m
        (by simpa [h] using hmem)
      · intro f hf
        exact of_decide_eq_true (List.mem_filter.mp hf).2
      · intro p hp
        exact of_decide_eq_true (List.mem_filter.mp hp).2

/-- C3 counterexample: match ids are rebuilt from the ordered user pair,
so the 120-second timer of an earlier bob-alice proposal (scheduled at
time 2, due at 122) survives the denial of that match and, when it fires
at 122, expires the re-proposed bob-alice match created at time 30 even
though that match is only 92 seconds old — before its own 120-second
window has elapsed. -/
theorem stale_timer_early_expiry :
    Reachable env0 staleFiredWorld ∧
    (mapGet staleTimerWorld.st.activeMatches "match_bob_alice").map
        Match.createdAt = some 30 ∧
    (mapGet staleTimerWorld.st.activeMatches "match_bob_alice").map
        Match.status = some MatchStatus.pending_approval ∧
    staleFiredWorld.now = 122 ∧
    staleFiredWorld.log.drop staleTimerWorld.log.length =
      [Emit.matchCancelled "bob" "Match expired" CancelReason.expired,
       Emit.matchCancelled "alice" "Match expired" CancelReason.expired] ∧
    staleFiredWorld.now < 30 + 120 := by
  refine ⟨?_, by decide, by decide, by decide, by decide, by decide⟩
  exact Relation.ReflTransGen.tail
    (Relation.ReflTransGen.tail
      (Relation.ReflTransGen.tail
        (Relation.ReflTransGen.tail
          (Relation.ReflTransGen.tail Relation.ReflTransGen.refl
            (Step.newSearch initialWorld dataFind "alice" 0 (by decide)))
          (Step.newSearch _ dataPool "bob" 2 (by decide)))
        (Step.deny _ "match_bob_alice" "alice" 10 (by decide)))
      (Step.newSearch _ dataPool "bob" 30 (by decide)))
    (Step.timerFire _ "match_bob_alice" 122 122 (by decide) (by decide)
      (by decide))

/-- C3 (amended): every proposal schedules exactly one expiry timeout 120
seconds ahead, and the deferred expiry action checks state before firing:
it is a no-op when the match id no longer resolves or the match is no
longer pending_approval, and cancels with reason expired exactly when the
id still maps to a pending_approval match (after which the entry is gone,
so a second firing is a no-op); however, because match ids are rebuilt
from the ordered user pair, a stale timer of an earlier proposal of the
same pair can expire a later pending match before its own window (see the
counterexample). -/
theorem expiry_checks_status (now : ℕ) (s1 s2 : Search)
    (st : ServiceState) (matchId : String) (m : Match)
    (hget : mapGet st.activeMatches matchId = some m) :
    (initiateInstantConnection now s1 s2 st).1.timers =
      st.timers ++ [(matchIdFor s1.user s2.user, now + 120)] ∧
    (m.status ≠ MatchStatus.pending_approval →
      expireMatch matchId st = (st, [])) ∧
    (m.status = MatchStatus.pending_approval →
      expireMatch matchId st = cancelMatch m CancelReason.expired st) ∧
    (∀ otherId, mapGet st.activeMatches otherId = none →
      expireMatch otherId st = (st, [])) := by
  refine ⟨rfl, ?_, ?_, ?_⟩
  · intro h
    unfold expireMatch
    rw [hget]
    simp [h]
  · intro h
    unfold expireMatch
    rw [hget]
    simp [h]
  · intro otherId h2
    unfold expireMatch
    rw [h2]

/-- C8 counterexample: the claim fails in both directions at concrete
inputs.  A pickup latitude of exactly 0 lies inside [-90, 90], yet the
start-realtime-search route rejects the request with its generic
invalid-coordinates message (a falsy-field check, validation beyond
well-formedness), so not every in-range request is accepted; and a
request with latitude 91 fails not with an application-level
InvalidCoordinates error but with the 2dsphere-indexed insert throwing,
surfaced as a bare search_error — after the prior search of the user was
already deleted. -/
theorem range_validation_counterexample :
    startRealtimeSearchCheck zeroLatBody =
      Except.error "Invalid coordinates provided" ∧
    (handleNewSearch env0 0 dataBadLat "alice"
        { activeMatches := [], searchesDB := [searchAlice],
          timers := [] }).1.searchesDB = [] ∧
    (handleNewSearch env0 0 dataBadLat "alice"
        { activeMatches := [], searchesDB := [searchAlice],
          timers := [] }).2 = [Emit.searchError "alice"] := by
  refine ⟨rfl, by decide, by decide⟩

/-- C8 (amended): the application performs no coordinate-range validation
of its own; the range check happens in the store.  When both stored
points are valid GeoJSON the prior search is deleted and the new record
inserted with a fresh TTL; when a point is out of range the
2dsphere-indexed create throws, so no record is created, the prior search
stays deleted, and the client receives a generic search_error — never an
InvalidCoordinates error.  The HTTP route checks only for missing or
falsy fields, rejecting even in-range zero coordinates with a generic
message. -/
theorem coordinate_range_validation :
    (∀ (env : Env) (now : ℕ) (d : SearchData) (uid : UserId)
        (st : ServiceState),
      (validGeoPoint (mkActiveSearch d uid).pickupCoords &&
        validGeoPoint (mkActiveSearch d uid).dropCoords) = true →
      (handleNewSearch env now d uid st).1.searchesDB =
        st.searchesDB.filter (fun s => decide (s.user ≠ uid)) ++
          [mkActiveSearch d uid]) ∧
    (∀ (env : Env) (now : ℕ) (d : SearchData) (uid : UserId)
        (st : ServiceState),
      (validGeoPoint (mkActiveSearch d uid).pickupCoords &&
        validGeoPoint (mkActiveSearch d uid).dropCoords) = false →
      (handleNewSearch env now d uid st).1.searchesDB =
        st.searchesDB.filter (fun s => decide (s.user ≠ uid)) ∧
      (handleNewSearch env now d uid st).2 = [Emit.searchError uid]) ∧
    (∀ (b : StartSearchBody) (pc dc : JsCoord),
      b.pickupCoords = some pc → b.dropCoords = some dc →
      falsyStr b.pickup = false → falsyStr b.drop = false →
      (b.type = some "findCar" ∨ b.type = some "poolCar") →
      falsyNum pc.lat = false → falsyNum pc.lng = false →
      falsyNum dc.lat = false → falsyNum dc.lng = false →
      startRealtimeSearchCheck b = Except.ok ()) := by
  refine ⟨?_, ?_, ?_⟩
  · intro env now d uid st h
    unfold handleNewSearch
    dsimp only
    rw [h, if_pos rfl]
    split <;> rfl
  · intro env now d uid st h
    unfold handleNewSearch
    dsimp only
    rw [h]
    exact ⟨rfl, rfl⟩
  · intro b pc dc h1 h2 h3 h4 h5 h6 h7 h8 h9
    have htypeFalsy : falsyStr b.type = false := by
      rcases h5 with h | h <;> rw [h] <;> rfl
    have hcond1 : (falsyStr b.pickup || falsyStr b.drop ||
        b.pickupCoords.isNone || b.dropCoords.isNone ||
        falsyStr b.type) = false := by
      rw [h1, h2, h3, h4, htypeFalsy]
      rfl
    have htypeOk : (decide (b.type = some "findCar") ||
        decide (b.type = some "poolCar")) = true := by
      rcases h5 with h | h <;> simp [h]
    have hcond3 : (falsyNum pc.lat || falsyNum pc.lng ||
        falsyNum dc.lat || falsyNum dc.lng) = false := by
      rw [h6, h7, h8, h9]
      rfl
    unfold startRealtimeSearchCheck
    rw [hcond1, htypeOk, h1, h2]
    dsimp only
    rw [hcond3]
    simp

/-- Witness for C10 at concrete inputs: a pickup latitude of exactly zero
gives an infinite distance and a rejected search. -/
theorem haversine_falsy_infinity_witness :
    calculateHaversineDistance tri0 (some { lat := some 0, lng := some 77 })
        (some { lat := some 12, lng := some 77 }) = ⊤ ∧
    findMatchesCheck (some { lat := some 0, lng := some 77 }) =
      Except.error "Pickup coordinates are required" :=
  haversine_falsy_infinity tri0 (some { lat := some 0, lng := some 77 })
    (some { lat := some 12, lng := some 77 })
    { lat := some 0, lng := some 77 } (by decide) (Or.inl rfl)

/-- Witness for C6 at the concrete fixture: alice already approved the
bob-alice match, so her second approval is rejected and the state is
unchanged. -/
theorem duplicate_approval_rejected_witness :
    handleMatchApproval env0 "match_bob_alice" "alice" stOneApproval =
      (stOneApproval,
        [Emit.matchError "alice" "You have already approved this match"]) :=
  duplicate_approval_rejected env0 stOneApproval "match_bob_alice"
    matchBAApproved "alice" (by decide) (Or.inr (by decide)) (by decide)
    (by decide)

/-- Witness for C5 at the concrete fixture: the outsider eve cannot
approve the bob-alice match, while her denial goes straight to
cancelMatch. -/
theorem approval_requires_membership_witness :
    handleMatchApproval env0 "match_bob_alice" "eve" stPending =
      (stPending, [Emit.matchError "eve" "You are not part of this match"]) ∧
    handleMatchDenial "match_bob_alice" "eve" stPending =
      cancelMatch matchBA CancelReason.denied stPending :=
  ⟨(approval_requires_membership env0 stPending "match_bob_alice" matchBA
      "eve" (by decide) (by decide) (by decide)).1 (by decide),
   (approval_requires_membership env0 stPending "match_bob_alice" matchBA
      "eve" (by decide) (by decide) (by decide)).2⟩

/-- Witness for C7 at the concrete fixture: alice denies the pending
bob-alice match; the match is removed, both users are notified, and both
search records survive. -/
theorem member_denial_preserves_searches_witness :
    (handleMatchDenial "match_bob_alice" "alice" stPending).1.searchesDB =
      stPending.searchesDB ∧
    mapGet (handleMatchDenial "match_bob_alice" "alice"
        stPending).1.activeMatches "match_bob_alice" = none ∧
    (handleMatchDenial "match_bob_alice" "alice" stPending).2 =
      [Emit.matchCancelled "bob" "Match was declined by your partner"
        CancelReason.denied,
       Emit.matchCancelled "alice" "Match was declined by your partner"
        CancelReason.denied] :=
  member_denial_preserves_searches stPending "match_bob_alice" matchBA
    "alice" (by decide) (by decide) (by decide) (Or.inr (by decide))

/-- Witness for C2 at the concrete fixture: bob gives the second approval
and the connection is established. -/
theorem second_approval_establishes_witness :
    mapGet (handleMatchApproval env0 "match_bob_alice" "bob"
        stOneApproval).1.activeMatches "match_bob_alice" =
      some { matchBAApproved with
              approvals := ["alice", "bob"],
              status := MatchStatus.connected,
              chatRoomId := some (chatRoomIdFor "bob" "alice") } ∧
    (handleMatchApproval env0 "match_bob_alice" "bob"
        stOneApproval).1.searchesDB =
      stOneApproval.searchesDB.filter (fun s =>
        decide (s.user ≠ "bob" ∧ s.user ≠ "alice")) ∧
    (handleMatchApproval env0 "match_bob_alice" "bob" stOneApproval).2 =
      [Emit.connectionEstablished "bob" (chatRoomIdFor "bob" "alice")
        "alice" (env0.users "alice").contactInfo,
       Emit.connectionEstablished "alice" (chatRoomIdFor "bob" "alice")
        "bob" (env0.users "bob").contactInfo,
       Emit.systemChatMessage (chatRoomIdFor "bob" "alice")] :=
  second_approval_establishes env0 stOneApproval "match_bob_alice"
    matchBAApproved "alice" "bob" (by decide) (by decide) (by decide)
    (Or.inl (by decide)) (by decide)

/-- Witness for C1 at the concrete fixture: one scan tick over a state
that satisfies the invariant keeps alice at no more than one pending
match. -/
theorem scan_preserves_single_pending_witness :
    pendingMatchCount (performContinuousMatching env0 50 stPending).1
      "alice" ≤ 1 :=
  scan_preserves_single_pending env0 50 stPending
    (fun u => by
      show List.countP (pendingFor u) [("match_bob_alice", matchBA)] ≤ 1
      rcases h : pendingFor u ("match_bob_alice", matchBA) with _ | _ <;>
        simp [List.countP_cons, h]) "alice"

/-- Witness for C3 at the concrete fixture: a proposal at time 7 schedules
a timeout at 127, expiry cancels the pending bob-alice match, and expiry
of an unknown id is a no-op. -/
theorem expiry_checks_status_witness :
    (initiateInstantConnection 7 searchAlice searchBob stPending).1.timers =
      stPending.timers ++ [(matchIdFor "alice" "bob", 7 + 120)] ∧
    expireMatch "match_bob_alice" stPending =
      cancelMatch matchBA CancelReason.expired stPending ∧
    expireMatch "no_such_match" stPending = (stPending, []) :=
  ⟨(expiry_checks_status 7 searchAlice searchBob stPending
      "match_bob_alice" matchBA (by decide)).1,
   (expiry_checks_status 7 searchAlice searchBob stPending
      "match_bob_alice" matchBA (by decide)).2.2.1 (by decide),
   (expiry_checks_status 7 searchAlice searchBob stPending
      "match_bob_alice" matchBA (by decide)).2.2.2 "no_such_match"
      (by decide)⟩

/-- Witness for C4 at the concrete fixture: the iff for the alice and bob
searches, and the scan over stScan proposes the alice-bob match, which
indeed joins a findCar search with a compatible poolCar search. -/
theorem compatibility_decision_witness :
    (areSearchesCompatible tri0 searchAlice searchBob = true ↔
      (calculateDistance tri0 searchAlice.pickupCoords.lat
          searchAlice.pickupCoords.lng searchBob.pickupCoords.lat
          searchBob.pickupCoords.lng ≤ 5000 ∧
       calculateDistance tri0 searchAlice.dropCoords.lat
          searchAlice.dropCoords.lng searchBob.dropCoords.lat
          searchBob.dropCoords.lng ≤ 5000)) ∧
    (("match_alice_bob", matchScanAB) ∈ stScan.activeMatches ∨
      (matchScanAB.search1.type = SearchType.findCar ∧
       matchScanAB.search2.type = SearchType.poolCar ∧
       areSearchesCompatible env0.tri matchScanAB.search1
         matchScanAB.search2 = true)) :=
  ⟨compatibility_decision.1 tri0 searchAlice searchBob,
   compatibility_decision.2 env0 0 stScan "match_alice_bob" matchScanAB
     (by decide)⟩

/-- Witness for C8 at concrete inputs: carol inserts an in-range search
into an empty registry, the out-of-range latitude-91 payload of dave is
rejected by the store with only a search_error, and a well-formed body
passes the route checks. -/
theorem coordinate_range_validation_witness :
    (handleNewSearch env0 5 dataFind "carol"
        { activeMatches := [], searchesDB := [], timers := [] }).1.searchesDB =
      (List.filter (fun s => decide (s.user ≠ "carol")) []) ++
        [mkActiveSearch dataFind "carol"] ∧
    ((handleNewSearch env0 6 dataBadLat "dave"
        { activeMatches := [], searchesDB := [], timers := [] }).1.searchesDB =
      List.filter (fun s => decide (s.user ≠ "dave")) [] ∧
     (handleNewSearch env0 6 dataBadLat "dave"
        { activeMatches := [], searchesDB := [], timers := [] }).2 =
      [Emit.searchError "dave"]) ∧
    startRealtimeSearchCheck goodBody = Except.ok () :=
  ⟨coordinate_range_validation.1 env0 5 dataFind "carol"
      { activeMatches := [], searchesDB := [], timers := [] } (by decide),
   coordinate_range_validation.2.1 env0 6 dataBadLat "dave"
      { activeMatches := [], searchesDB := [], timers := [] } (by decide),
   coordinate_range_validation.2.2 goodBody { lat := some 10, lng := some 20 }
     { lat := some 30, lng := some 40 } rfl rfl (by decide) (by decide)
     (Or.inl rfl) (by decide) (by decide) (by decide) (by decide)⟩

end CarPool
